import Mathlib

/-!
Verification development for the `stock-support` repository.

The repository is a small Python application: `support_handler.py` defines a
`stock_handler` class (symbol-list download and parsing, Excel export with a
fresh-filename search, company-info lookup through a provider, and two
console reports), and `stock_gui.py` / `stock_web_gui.py` are a desktop and a
web front end sharing four value formatters.

This file gives a shallow embedding of those parts in Lean.  Strings are
processed over `List Char` mirroring Python's `str` operations; numeric
values are modelled over `ℚ` (an abstraction of the floats used by the
program; the two-decimal rendering uses round-half-even as IEEE formatting
does); fallible Python operations are modelled with `Except`.
-/

/-! ## Python string primitives (over `List Char`) -/

/-- Whitespace test used by Python's `str.strip` / `str.split` (ASCII part). -/
def isPySpace (c : Char) : Bool := c.isWhitespace

/-- `str.splitlines`, recognising `\r\n`, `\r` and `\n` as line ends.
Accumulator holds the current line reversed. -/
def pySplitlinesAux : List Char → List Char → List (List Char)
  | [], acc => if acc = [] then [] else [acc.reverse]
  | '\r' :: '\n' :: rest, acc => acc.reverse :: pySplitlinesAux rest []
  | '\r' :: rest, acc => acc.reverse :: pySplitlinesAux rest []
  | '\n' :: rest, acc => acc.reverse :: pySplitlinesAux rest []
  | c :: rest, acc => pySplitlinesAux rest (c :: acc)

/-- Python `text.splitlines()`. -/
def pySplitlines (l : List Char) : List (List Char) := pySplitlinesAux l []

/-- Python `s.strip()`: drop leading and trailing whitespace. -/
def pyStrip (l : List Char) : List Char :=
  ((l.dropWhile isPySpace).reverse.dropWhile isPySpace).reverse

/-- Worker for Python `s.split()` (split on whitespace runs, no empty parts);
`acc` holds the current word reversed. -/
def pyWordsAux : List Char → List Char → List (List Char)
  | [], acc => if acc = [] then [] else [acc.reverse]
  | c :: rest, acc =>
    if isPySpace c then
      if acc = [] then pyWordsAux rest [] else acc.reverse :: pyWordsAux rest []
    else pyWordsAux rest (c :: acc)

/-- Python `s.split()` with no separator argument. -/
def pyWords (l : List Char) : List (List Char) := pyWordsAux l []

/-! ## `stock_handler.get_all_stock_symbols` (support_handler.py, lines 11-29)

The download part (`requests.get`, `raise_for_status`) is abstracted to the
fetched text; the parsing of `response.text` is embedded literally. -/

/-- The test on line 21 of support_handler.py:
`if not line or line.startswith("As of") or line.startswith("Symbol")`. -/
def isSkippedLine (line : List Char) : Bool :=
  line.isEmpty || "As of".toList.isPrefixOf line || "Symbol".toList.isPrefixOf line

/-- The `for` loop of `get_all_stock_symbols` (lines 19-25): strip each line,
skip blank/header lines, keep the first whitespace-delimited token. -/
def rawSymbols (lines : List (List Char)) : List (List Char) :=
  lines.filterMap (fun rawLine =>
    let line := pyStrip rawLine
    if isSkippedLine line then none
    else (pyWords line).head?)

/-- `stock_handler.get_all_stock_symbols`, applied to the fetched text:
split into lines, collect first tokens, then `s.split(':')[0]` each
(line 28: `cleaned_symbols = [s.split(':')[0] for s in symbols]`). -/
def get_all_stock_symbols (text : String) : List String :=
  let symbols := rawSymbols (pySplitlines text.toList)
  let cleaned_symbols := symbols.map (fun s => s.takeWhile (· ≠ ':'))
  cleaned_symbols.map String.mk

/-! Spec-side rendition of the same pipeline, written from the spec's words
("split into lines; drop blank lines and lines recognized as header/footer by
a fixed textual prefix match; for each remaining line, take the first
whitespace-delimited token as the raw symbol; strip any trailing
colon-delimited annotation; collect into an ordered sequence"), to be
compared with the source embedding above. -/

/-- Spec-side pipeline for `fetch_symbols` (refinement reference). -/
def fetch_symbols_spec (text : String) : List String :=
  ((((pySplitlines text.toList).map pyStrip).filter
      (fun line => !(isSkippedLine line))).filterMap
      (fun line => (pyWords line).head?)).map
    (fun tok => String.mk (tok.takeWhile (· ≠ ':')))

/-! ## Decimal numerals

Python renders the loop counter of `get_all_stock` with an f-string, in
decimal.  `natDecimal` is that decimal rendering, written with explicit fuel
so that it reduces definitionally; `decValue` is the corresponding parser,
used to prove the rendering injective. -/

/-- Value of a big-endian list of decimal digit characters. -/
def decValue (l : List Char) : Nat := l.foldl (fun a c => a * 10 + (c.toNat - 48)) 0

/-- Big-endian decimal digits of `n` (second argument), with fuel. -/
def natDecimalAux : Nat → Nat → List Char
  | 0, _ => []
  | _ + 1, 0 => []
  | fuel + 1, n + 1 => natDecimalAux fuel ((n + 1) / 10) ++ [Nat.digitChar ((n + 1) % 10)]

/-- Decimal digit characters of `n` (`['0']` for zero). -/
def natDecimalChars (n : Nat) : List Char := if n = 0 then ['0'] else natDecimalAux n n

/-- Decimal rendering of a natural number, as Python's f-string produces. -/
def natDecimal (n : Nat) : String := String.mk (natDecimalChars n)

/-! ## `stock_handler.get_all_stock` (support_handler.py, lines 31-45)

The filesystem is modelled as the list of file names that exist; the
`while os.path.exists(filename)` loop is embedded with fuel
`existing.length + 1`, which the theorems show suffices. -/

/-- The candidate names tried by the loop, in order: the base name, then
`tsx_symbols_<n>.xlsx` for n = 1, 2, ... -/
def tsxFilename : Nat → String
  | 0 => "tsx_symbols.xlsx"
  | n + 1 => "tsx_symbols_" ++ natDecimal (n + 1) ++ ".xlsx"

/-- The `while os.path.exists(filename)` loop (lines 38-40). -/
def get_all_stock_loop (existing : List String) : Nat → String → Nat → String
  | 0, filename, _ => filename
  | fuel + 1, filename, counter =>
    if filename ∈ existing then
      get_all_stock_loop existing fuel
        ("tsx_symbols_" ++ natDecimal counter ++ ".xlsx") (counter + 1)
    else filename

/-- `stock_handler.get_all_stock`, reduced to its filename choice: starting
from `base_filename = "tsx_symbols.xlsx"` and `counter = 1`, return the first
candidate that does not exist.  (The spreadsheet write itself is outside the
model; the function returns the filename used.) -/
def get_all_stock (existing : List String) : String :=
  get_all_stock_loop existing (existing.length + 1) "tsx_symbols.xlsx" 1

/-! ## Python values and the value formatters (stock_gui.py, lines 484-564)

A formatter input is `None`, a number, or a non-numeric object (modelled by
its string).  Numbers are `ℚ`; `%.2f`-style rendering rounds half to even
(`rhe`), as IEEE-double formatting does. -/

/-- A Python value as the formatters and the info dictionary see it. -/
inductive PyObj : Type
  | none : PyObj
  | num : ℚ → PyObj
  | str : String → PyObj
deriving DecidableEq

/-- Python exception kinds relevant to the embedded code. -/
inductive PyExc : Type
  | typeError | valueError | keyError | attributeError | networkError
deriving DecidableEq

/-- JavaScript exception kinds for the web front end's script. -/
inductive JsExc : Type
  | typeError
deriving DecidableEq

/-- Round half to even, to the nearest integer. -/
def rhe (q : ℚ) : Int :=
  let f : Int := ⌊q⌋
  if q - f < (1 : ℚ) / 2 then f
  else if (1 : ℚ) / 2 < q - f then f + 1
  else if f % 2 = 0 then f else f + 1

/-- Left-pad a two-digit fractional part with `0`. -/
def pad2 (k : Nat) : String := if k < 10 then "0" ++ natDecimal k else natDecimal k

/-- `f"{q:.2f}"` / JavaScript `toFixed(2)`: two-decimal fixed rendering. -/
def fixed2 (q : ℚ) : String :=
  let n : Int := rhe (q * 100)
  (if n < 0 then "-" else "") ++ natDecimal (n.natAbs / 100) ++ "." ++ pad2 (n.natAbs % 100)

/-- Insert a comma after every group of three digits, counted from the right
end of a little-endian digit list. -/
def group3 : List Char → List Char
  | a :: b :: c :: d :: rest => a :: b :: c :: ',' :: group3 (d :: rest)
  | l => l

/-- Thousands-grouping of a big-endian digit list. -/
def insertCommas (l : List Char) : List Char := (group3 l.reverse).reverse

/-- `f"{q:,.2f}"`: two decimals with a thousands-grouped integer part. -/
def commaFixed2 (q : ℚ) : String :=
  let n : Int := rhe (q * 100)
  (if n < 0 then "-" else "") ++ String.mk (insertCommas (natDecimalChars (n.natAbs / 100)))
    ++ "." ++ pad2 (n.natAbs % 100)

/-- Body of the `try` block of `_format_number` (stock_gui.py 501-509).
A non-numeric or `None` operand of `>=` raises, which the `except` catches. -/
def format_number_try : PyObj → Except PyExc String
  | PyObj.num v =>
    Except.ok <|
      if v ≥ 1000000000 then "$" ++ fixed2 (v / 1000000000) ++ "B"
      else if v ≥ 1000000 then "$" ++ fixed2 (v / 1000000) ++ "M"
      else if v ≥ 1000 then "$" ++ fixed2 (v / 1000) ++ "K"
      else "$" ++ commaFixed2 v
  | _ => Except.error PyExc.typeError

/-- `StockAnalyzerGUI._format_number`: `None` short-circuits to "N/A", any
exception in the body degrades to "N/A". -/
def format_number (value : PyObj) : String :=
  if value = PyObj.none then "N/A"
  else match format_number_try value with
    | Except.ok s => s
    | Except.error _ => "N/A"

/-- Body of the `try` block of `_format_price` (stock_gui.py 524-527). -/
def format_price_try : PyObj → Except PyExc String
  | PyObj.num v => Except.ok (fixed2 v)
  | _ => Except.error PyExc.typeError

/-- `StockAnalyzerGUI._format_price`. -/
def format_price (value : PyObj) : String :=
  if value = PyObj.none then "N/A"
  else match format_price_try value with
    | Except.ok s => s
    | Except.error _ => "N/A"

/-- Body of the `try` block of `_format_ratio` (stock_gui.py 542-545). -/
def format_ratio_try : PyObj → Except PyExc String
  | PyObj.num v => Except.ok (fixed2 v)
  | _ => Except.error PyExc.typeError

/-- `StockAnalyzerGUI._format_ratio`. -/
def format_ratio (value : PyObj) : String :=
  if value = PyObj.none then "N/A"
  else match format_ratio_try value with
    | Except.ok s => s
    | Except.error _ => "N/A"

/-- Body of the `try` block of `_format_percent` (stock_gui.py 561-564). -/
def format_percent_try : PyObj → Except PyExc String
  | PyObj.num v => Except.ok (fixed2 (v * 100) ++ "%")
  | _ => Except.error PyExc.typeError

/-- `StockAnalyzerGUI._format_percent`. -/
def format_percent (value : PyObj) : String :=
  if value = PyObj.none then "N/A"
  else match format_percent_try value with
    | Except.ok s => s
    | Except.error _ => "N/A"

/-- C3's claimed behaviour of `_format_number`, written from the claim's
words: absolute-value thresholds, and no currency prefix (the claim says the
caller applies it). -/
def format_magnitude_claimed : PyObj → String
  | PyObj.none => "N/A"
  | PyObj.str _ => "N/A"
  | PyObj.num v =>
    if |v| ≥ 1000000000 then fixed2 (v / 1000000000) ++ "B"
    else if |v| ≥ 1000000 then fixed2 (v / 1000000) ++ "M"
    else if |v| ≥ 1000 then fixed2 (v / 1000) ++ "K"
    else commaFixed2 v

/-- C3 amended: signed thresholds (`x ≥ 1e9`, not `|x| ≥ 1e9`) and the `$`
prefix applied by the formatter itself. -/
def format_magnitude_amended : PyObj → String
  | PyObj.none => "N/A"
  | PyObj.str _ => "N/A"
  | PyObj.num v =>
    if v ≥ 1000000000 then "$" ++ fixed2 (v / 1000000000) ++ "B"
    else if v ≥ 1000000 then "$" ++ fixed2 (v / 1000000) ++ "M"
    else if v ≥ 1000 then "$" ++ fixed2 (v / 1000) ++ "K"
    else "$" ++ commaFixed2 v

/-! ## Web front end formatters (stock_web_gui.py, lines 487-530)

JavaScript semantics: `if (!value) return null` returns `null` for `null`,
`0` and the empty string; a truthy non-number reaches `value.toFixed(2)`,
which throws a `TypeError` that nothing catches.  The caller renders
`formatX(...) || 'N/A'`. -/

/-- `formatNumber` of the web page's script. -/
def formatNumber : PyObj → Except JsExc (Option String)
  | PyObj.none => Except.ok Option.none
  | PyObj.str s => if s = "" then Except.ok Option.none else Except.error JsExc.typeError
  | PyObj.num v =>
    if v = 0 then Except.ok Option.none
    else Except.ok (some (
      if v ≥ 1000000000 then "$" ++ fixed2 (v / 1000000000) ++ "B"
      else if v ≥ 1000000 then "$" ++ fixed2 (v / 1000000) ++ "M"
      else if v ≥ 1000 then "$" ++ fixed2 (v / 1000) ++ "K"
      else "$" ++ fixed2 v))

/-- `formatPrice` of the web page's script. -/
def formatPrice : PyObj → Except JsExc (Option String)
  | PyObj.none => Except.ok Option.none
  | PyObj.str s => if s = "" then Except.ok Option.none else Except.error JsExc.typeError
  | PyObj.num v => if v = 0 then Except.ok Option.none else Except.ok (some (fixed2 v))

/-- `formatRatio` of the web page's script. -/
def formatRatio : PyObj → Except JsExc (Option String)
  | PyObj.none => Except.ok Option.none
  | PyObj.str s => if s = "" then Except.ok Option.none else Except.error JsExc.typeError
  | PyObj.num v => if v = 0 then Except.ok Option.none else Except.ok (some (fixed2 v))

/-- `formatPercent` of the web page's script. -/
def formatPercent : PyObj → Except JsExc (Option String)
  | PyObj.none => Except.ok Option.none
  | PyObj.str s => if s = "" then Except.ok Option.none else Except.error JsExc.typeError
  | PyObj.num v =>
    if v = 0 then Except.ok Option.none
    else Except.ok (some (fixed2 (v * 100) ++ "%"))

/-- The web caller's rendering `$('#x').text(formatX(v) || 'N/A')`: a `null`
result renders as "N/A"; an exception propagates (the page script dies). -/
def webText (r : Except JsExc (Option String)) : Except JsExc String :=
  r.map (fun o => o.getD "N/A")

/-! ## The info dictionary and its consumers -/

/-- A company-info record: a provider dictionary with no declared schema. -/
abbrev Dict := List (String × PyObj)

/-- Python `info[k]` lookup result (first binding of the key). -/
def dictGet (info : Dict) (k : String) : Option PyObj :=
  (info.find? (fun p => p.1 == k)).map (fun p => p.2)

/-- Python `info.get(k)` (default `None`). -/
def pyGet (info : Dict) (k : String) : PyObj := (dictGet info k).getD PyObj.none

/-- Python `info.get(k, d)`. -/
def pyGetD (info : Dict) (k : String) (d : PyObj) : PyObj := (dictGet info k).getD d

/-- Rendering of a number in an f-string.  (The exact float numeral syntax is
abstracted; no claim depends on it, only on the rendering being total.) -/
def numRepr (q : ℚ) : String :=
  (if q.num < 0 then "-" else "") ++ natDecimal q.num.natAbs ++
    (if q.den = 1 then "" else "/" ++ natDecimal q.den)

/-- Python `str(v)` as used by f-string interpolation: total, never raises. -/
def pyStr : PyObj → String
  | PyObj.none => "None"
  | PyObj.num q => numRepr q
  | PyObj.str s => s

/-- Python slicing `v[:n]`: raises `TypeError` on `None` (and numbers). -/
def pySlice (v : PyObj) (n : Nat) : Except PyExc String :=
  match v with
  | PyObj.str s => Except.ok (String.mk (s.data.take n))
  | _ => Except.error PyExc.typeError

/-- Python `f"{v:,}"`: thousands-grouping; raises on `None` and on strings.
(For non-integer rationals the fractional tail's numeral syntax is
abstracted; no claim depends on it.) -/
def pyFormatComma : PyObj → Except PyExc String
  | PyObj.num q =>
    Except.ok ((if q.num < 0 then "-" else "") ++
      String.mk (insertCommas (natDecimalChars (q.num.natAbs / q.den))) ++
      (if q.den = 1 then "" else "+" ++ natDecimal (q.num.natAbs % q.den) ++ "/" ++ natDecimal q.den))
  | PyObj.none => Except.error PyExc.typeError
  | PyObj.str _ => Except.error PyExc.valueError

/-- Python `v.upper()`: raises `AttributeError` on non-strings. -/
def pyUpper : PyObj → Except PyExc String
  | PyObj.str s => Except.ok s.toUpper
  | _ => Except.error PyExc.attributeError

/-- `print(info)` line: the dictionary's repr (total; content abstracted). -/
def dictRepr (info : Dict) : String :=
  String.intercalate ", " (info.map (fun p => p.1 ++ ": " ++ pyStr p.2))

/-- `stock_handler.get_company_info` (support_handler.py 47-51): fetch the
provider's info dictionary and return it.  No exception handling: a provider
failure propagates as-is. -/
def get_company_info (provider : String → Except PyExc Dict) (symbol : String) :
    Except PyExc Dict :=
  provider symbol

/-- The `try` block of `print_stock_info` (support_handler.py 58-112), as the
list of printed lines.  The fallible steps, in source order: the
`longBusinessSummary` slice `[:300]` and the `f"{...:,}"` formats of
marketCap, totalRevenue, grossProfits, netIncomeToCommon and totalDebt, each
of which raises on a missing (`None`) field. -/
def print_stock_info_body (info : Dict) : Except PyExc (List String) := do
  let sec := ["📄 Company Info:",
    "Sector: " ++ pyStr (pyGet info "sector"),
    "Industry: " ++ pyStr (pyGet info "industry"),
    "Website: " ++ pyStr (pyGet info "website"),
    "Exchange: " ++ pyStr (pyGet info "exchange")]
  let desc ← pySlice (pyGet info "longBusinessSummary") 300
  let mcap ← pyFormatComma (pyGet info "marketCap")
  let mkt := ["💰 Market & Valuation:",
    "Market Cap: " ++ mcap,
    "PE Ratio (TTM): " ++ pyStr (pyGet info "trailingPE"),
    "PEG Ratio (5 yr expected): " ++ pyStr (pyGet info "pegRatio"),
    "Price to Book: " ++ pyStr (pyGet info "priceToBook"),
    "Forward PE: " ++ pyStr (pyGet info "forwardPE")]
  let prof := ["📊 Profitability:",
    "Return on Equity (ROE): " ++ pyStr (pyGet info "returnOnEquity"),
    "Return on Assets (ROA): " ++ pyStr (pyGet info "returnOnAssets"),
    "Profit Margin: " ++ pyStr (pyGet info "profitMargins")]
  let rev ← pyFormatComma (pyGet info "totalRevenue")
  let gross ← pyFormatComma (pyGet info "grossProfits")
  let net ← pyFormatComma (pyGet info "netIncomeToCommon")
  let perf := ["📈 Financial Performance:",
    "Revenue (TTM): " ++ rev,
    "Gross Profit: " ++ gross,
    "Net Income: " ++ net,
    "Quarterly Revenue Growth: " ++ pyStr (pyGet info "revenueQuarterlyGrowth"),
    "Quarterly Earnings Growth: " ++ pyStr (pyGet info "earningsQuarterlyGrowth")]
  let divi := ["💵 Dividends:",
    "Dividend Yield: " ++ pyStr (pyGet info "dividendYield"),
    "Dividend Rate: " ++ pyStr (pyGet info "dividendRate"),
    "Payout Ratio: " ++ pyStr (pyGet info "payoutRatio")]
  let debt ← pyFormatComma (pyGet info "totalDebt")
  let bal := ["🏦 Balance Sheet:",
    "Total Debt: " ++ debt,
    "Current Ratio: " ++ pyStr (pyGet info "currentRatio"),
    "Debt to Equity: " ++ pyStr (pyGet info "debtToEquity")]
  let ana := ["📢 Analyst Recommendation:",
    "Recommendation: " ++ pyStr (pyGet info "recommendationKey"),
    "Target Mean Price: " ++ pyStr (pyGet info "targetMeanPrice"),
    "Target High Price: " ++ pyStr (pyGet info "targetHighPrice"),
    "Target Low Price: " ++ pyStr (pyGet info "targetLowPrice")]
  let price := ["📉 Price Data:",
    "Current Price: " ++ pyStr (pyGet info "currentPrice"),
    "52-Week High: " ++ pyStr (pyGet info "fiftyTwoWeekHigh"),
    "52-Week Low: " ++ pyStr (pyGet info "fiftyTwoWeekLow")]
  pure (sec ++ ["Description: " ++ desc ++ "..."] ++ mkt ++ prof ++ perf
    ++ divi ++ bal ++ ana ++ price)

/-- `stock_handler.print_stock_info` (support_handler.py 53-114).  Note that
`print(info)` and the header f-string with `info['longName']` sit BEFORE the
`try`: a missing `longName` raises `KeyError` uncaught.  Inside the `try`,
any exception is caught and replaced by the `"No Stock"` line.  (Lines
printed before an in-`try` exception are not tracked; only the success
output and the failure marker are.) -/
def print_stock_info (provider : String → Except PyExc Dict) (stock : String) :
    Except PyExc (List String) := do
  let info ← get_company_info provider stock
  let l0 := dictRepr info
  match dictGet info "longName" with
  | Option.none => Except.error PyExc.keyError
  | some v =>
    let header := "========== " ++ pyStr v ++ " (" ++ stock ++ ") =========="
    match print_stock_info_body info with
    | Except.ok ls => pure ([l0, header] ++ ls)
    | Except.error _ => pure [l0, header, "No Stock"]

/-- The `try` block of `StockAnalyzerGUI._update_display` (stock_gui.py
433-477), as the list of label texts.  Every field is read with `.get` and a
default; the fallible steps are the summary slice `[:500]` (fallible only if
the field is PRESENT with a non-string value) and `.upper()` on
`recommendationKey`. -/
def update_display_body (info : Dict) (symbol : String) : Except PyExc (List String) := do
  let summary ← pySlice (pyGetD info "longBusinessSummary" (PyObj.str "No description available")) 500
  let company := ["Company: " ++ pyStr (pyGetD info "longName" (PyObj.str "N/A")) ++ " (" ++ symbol ++ ")",
    "Sector: " ++ pyStr (pyGetD info "sector" (PyObj.str "N/A")),
    "Industry: " ++ pyStr (pyGetD info "industry" (PyObj.str "N/A")),
    "Exchange: " ++ pyStr (pyGetD info "exchange" (PyObj.str "N/A")),
    "Website: " ++ pyStr (pyGetD info "website" (PyObj.str "N/A")),
    "Business Summary: " ++ summary ++ "..."]
  let market := ["Market Cap: " ++ format_number (pyGet info "marketCap"),
    "P/E Ratio (TTM): " ++ format_ratio (pyGet info "trailingPE"),
    "PEG Ratio: " ++ format_ratio (pyGet info "pegRatio"),
    "Price to Book: " ++ format_ratio (pyGet info "priceToBook"),
    "Forward P/E: " ++ format_ratio (pyGet info "forwardPE"),
    "Current Price: $" ++ format_price (pyGet info "currentPrice"),
    "52-Week High: $" ++ format_price (pyGet info "fiftyTwoWeekHigh"),
    "52-Week Low: $" ++ format_price (pyGet info "fiftyTwoWeekLow")]
  let fin := ["Return on Equity (ROE): " ++ format_percent (pyGet info "returnOnEquity"),
    "Return on Assets (ROA): " ++ format_percent (pyGet info "returnOnAssets"),
    "Profit Margin: " ++ format_percent (pyGet info "profitMargins"),
    "Revenue (TTM): " ++ format_number (pyGet info "totalRevenue"),
    "Gross Profit: " ++ format_number (pyGet info "grossProfits"),
    "Net Income: " ++ format_number (pyGet info "netIncomeToCommon"),
    "Total Debt: " ++ format_number (pyGet info "totalDebt"),
    "Current Ratio: " ++ format_ratio (pyGet info "currentRatio"),
    "Debt to Equity: " ++ format_ratio (pyGet info "debtToEquity")]
  let recKey ← pyUpper (pyGetD info "recommendationKey" (PyObj.str "N/A"))
  let ana := ["Recommendation: " ++ recKey,
    "Target Mean Price: $" ++ format_price (pyGet info "targetMeanPrice"),
    "Target High Price: $" ++ format_price (pyGet info "targetHighPrice"),
    "Target Low Price: $" ++ format_price (pyGet info "targetLowPrice"),
    "Dividend Yield: " ++ format_percent (pyGet info "dividendYield"),
    "Dividend Rate: $" ++ format_price (pyGet info "dividendRate"),
    "Payout Ratio: " ++ format_percent (pyGet info "payoutRatio")]
  pure (company ++ market ++ fin ++ ana)

/-- `StockAnalyzerGUI._update_display`: the surrounding `try/except` catches
any exception and shows an error dialog instead (modelled as a single error
line), so the GUI never hard-fails. -/
def update_display (info : Dict) (symbol : String) : List String :=
  match update_display_body info symbol with
  | Except.ok ls => ls
  | Except.error _ => ["Error updating display"]

/-- JavaScript/Python truthiness of a value. -/
def pyTruthy : PyObj → Bool
  | PyObj.none => false
  | PyObj.num q => decide (q ≠ 0)
  | PyObj.str s => decide (s ≠ "")

/-- Python `v * 100` for the values `analyze_etf` guards with truthiness
(number scaling; string repetition). -/
def pyMul100 : PyObj → PyObj
  | PyObj.num q => PyObj.num (q * 100)
  | PyObj.str s => PyObj.str (String.join (List.replicate 100 s))
  | PyObj.none => PyObj.none

/-- `stock_handler.analyze_etf` (support_handler.py 117-149): provider
lookup, then unconditional prints, all via `.get` (never raises). -/
def analyze_etf (provider : String → Except PyExc Dict) (ticker : String) :
    Except PyExc (List String) := do
  let info ← provider ticker
  let yd := pyGet info "yield"
  pure (["========== " ++ pyStr (pyGet info "longName") ++ " (" ++ ticker ++ ") ==========",
    "Fund Family: " ++ pyStr (pyGet info "fundFamily"),
    "Category: " ++ pyStr (pyGet info "category"),
    "Exchange: " ++ pyStr (pyGet info "exchange"),
    "📈 Price & Performance:",
    "Current Price: " ++ pyStr (pyGet info "currentPrice"),
    "52-Week High: " ++ pyStr (pyGet info "fiftyTwoWeekHigh"),
    "52-Week Low: " ++ pyStr (pyGet info "fiftyTwoWeekLow"),
    "1y Return: " ++ (if pyTruthy yd then pyStr (pyMul100 yd) else "N/A") ++ "%",
    "💸 Fees & Yield:",
    "Expense Ratio: " ++ pyStr (pyGet info "expenseRatio"),
    "Dividend Yield: " ++ pyStr (pyGet info "dividendYield"),
    "Annual Dividend: " ++ pyStr (pyGet info "dividendRate"),
    "⚠️ Risk & Volatility:",
    "Beta: " ++ pyStr (pyGet info "beta"),
    "Morningstar Risk Rating: " ++ pyStr (pyGet info "morningStarRiskRating"),
    "Morningstar Overall Rating: " ++ pyStr (pyGet info "morningStarOverallRating"),
    "🏦 Fund Size & Liquidity:",
    "AUM (Assets Under Management): " ++ pyStr (pyGet info "totalAssets"),
    "Volume: " ++ pyStr (pyGet info "volume"),
    "Average Volume: " ++ pyStr (pyGet info "averageVolume")])

/-! ## The handler object (support_handler.py, lines 7-9)

`stock_handler.__init__` assigns the fixed URL to `stock_symbol_list`, the
instance's only field.  Each method is embedded as a state transformer
returning its result together with the post-state; external effects
(HTTP fetch, provider lookup, filesystem) are parameters. -/

/-- The `stock_handler` instance state: its only attribute. -/
structure stock_handler : Type where
  stock_symbol_list : String
deriving DecidableEq

/-- `stock_handler()` — the constructor (lines 8-9). -/
def stock_handler_new : stock_handler :=
  ⟨"https://www.tsx.com/files/trading/interlisted-companies.txt"⟩

/-- Method `get_all_stock_symbols` on an instance: fetch the URL held in
`self.stock_symbol_list` and parse. -/
def stock_handler.get_all_stock_symbols_m (self : stock_handler)
    (fetch : String → Except PyExc String) :
    Except PyExc (List String) × stock_handler :=
  ((fetch self.stock_symbol_list).map get_all_stock_symbols, self)

/-- Method `get_all_stock` on an instance: fetch symbols, then write the
workbook under the first fresh filename. -/
def stock_handler.get_all_stock_m (self : stock_handler)
    (fetch : String → Except PyExc String) (existing : List String) :
    Except PyExc String × stock_handler :=
  match (self.get_all_stock_symbols_m fetch).1 with
  | Except.ok _ => (Except.ok (get_all_stock existing), self)
  | Except.error e => (Except.error e, self)

/-- Method `get_company_info` on an instance. -/
def stock_handler.get_company_info_m (self : stock_handler)
    (provider : String → Except PyExc Dict) (symbol : String) :
    Except PyExc Dict × stock_handler :=
  (get_company_info provider symbol, self)

/-- Method `print_stock_info` on an instance. -/
def stock_handler.print_stock_info_m (self : stock_handler)
    (provider : String → Except PyExc Dict) (stock : String) :
    Except PyExc (List String) × stock_handler :=
  (print_stock_info provider stock, self)

/-- Method `analyze_etf` on an instance. -/
def stock_handler.analyze_etf_m (self : stock_handler)
    (provider : String → Except PyExc Dict) (ticker : String) :
    Except PyExc (List String) × stock_handler :=
  (analyze_etf provider ticker, self)

/-- The retention test of C9: a raw line survives the loop's filter. -/
def line_retained (rawLine : List Char) : Bool := !(isSkippedLine (pyStrip rawLine))

/-- The ticker a retained raw line contributes. -/
def line_ticker (rawLine : List Char) : String :=
  String.mk (((pyWords (pyStrip rawLine)).headD []).takeWhile (· ≠ ':'))

theorem rawSymbols_eq_spec (lines : List (List Char)) :
    rawSymbols lines =
      (((lines.map pyStrip).filter (fun line => !(isSkippedLine line))).filterMap
        (fun line => (pyWords line).head?)) := by
  induction lines with
  | nil => rfl
  | cons l ls ih =>
    simp only [rawSymbols] at ih ⊢
    rw [List.filterMap_cons, List.map_cons, List.filter_cons]
    by_cases h : isSkippedLine (pyStrip l)
    · simp [h, ih]
    · cases hw : (pyWords (pyStrip l)).head? <;> simp [h, hw, ih]

theorem get_all_stock_symbols_eq_spec (text : String) :
    get_all_stock_symbols text = fetch_symbols_spec text := by
  simp [get_all_stock_symbols, fetch_symbols_spec, rawSymbols_eq_spec, List.map_map]

/-! ## Structural facts about the tokenizer -/

theorem pyWordsAux_ne_nil (l : List Char) :
    ∀ acc : List Char, acc ≠ [] → pyWordsAux l acc ≠ [] := by
  induction l with
  | nil => intro acc h; simp [pyWordsAux, h]
  | cons c rest ih =>
    intro acc h
    by_cases hc : isPySpace c
    · simp [pyWordsAux, hc, h]
    · simpa [pyWordsAux, hc] using ih (c :: acc) (by simp)

theorem pyWordsAux_no_space (l : List Char) :
    ∀ acc : List Char, (∀ c ∈ acc, isPySpace c = false) →
      ∀ w ∈ pyWordsAux l acc, ∀ c ∈ w, isPySpace c = false := by
  induction l with
  | nil =>
    intro acc hacc w hw
    by_cases h : acc = [] <;> simp [pyWordsAux, h] at hw
    subst hw; intro c hc; exact hacc c (List.mem_reverse.mp hc)
  | cons a rest ih =>
    intro acc hacc w hw
    by_cases ha : isPySpace a
    · by_cases h : acc = []
      · exact ih [] (by simp) w (by simpa [pyWordsAux, ha, h] using hw)
      · simp [pyWordsAux, ha, h] at hw
        rcases hw with hw | hw
        · subst hw; intro c hc; exact hacc c (List.mem_reverse.mp hc)
        · exact ih [] (by simp) w hw
    · refine ih (a :: acc) ?_ w (by simpa [pyWordsAux, ha] using hw)
      intro c hc
      rcases List.mem_cons.mp hc with rfl | hc
      · simpa using ha
      · exact hacc c hc

/-- Every word produced by `pyWords` contains no whitespace character. -/
theorem pyWords_no_space {l w : List Char} (hw : w ∈ pyWords l) :
    ∀ c ∈ w, isPySpace c = false :=
  pyWordsAux_no_space l [] (by simp) w hw

/-- A nonempty stripped string starts with a non-whitespace character. -/
theorem pyStrip_ne_nil_head (l : List Char) (h : pyStrip l ≠ []) :
    ∃ c cs, pyStrip l = c :: cs ∧ isPySpace c = false := by
  set X := l.dropWhile isPySpace with hX
  set Y := X.reverse.dropWhile isPySpace with hY
  have hps : pyStrip l = Y.reverse := rfl
  have hYne : Y ≠ [] := by
    intro hy; exact h (by simp [hps, hy])
  obtain ⟨c, cs, hcons⟩ := List.exists_cons_of_ne_nil (by
    intro hrev
    exact hYne (by simpa using congrArg List.reverse hrev) : Y.reverse ≠ [])
  refine ⟨c, cs, by simpa [hps] using hcons, ?_⟩
  -- head of `Y.reverse` = last of `Y` = last of `X.reverse` = head of `X`,
  -- and the head of a `dropWhile` run fails the predicate.
  have h1 : Y.reverse.head? = some c := by simp [hcons]
  have h2 : Y.getLast? = some c := by simpa [List.head?_reverse] using h1
  have hsuf : Y <:+ X.reverse := List.dropWhile_suffix _
  obtain ⟨t, ht⟩ := hsuf
  have h3 : X.reverse.getLast? = some c := by
    rw [← ht, List.getLast?_append, h2]; rfl
  have h4 : X.head? = some c := by simpa [List.getLast?_reverse] using h3
  have hXne : X ≠ [] := by intro hx; simp [hx] at h4
  have h5 : X.head hXne = c := by
    have h6 : X.head? = some (X.head hXne) := List.head?_eq_head hXne
    rw [h4] at h6
    exact (Option.some.inj h6).symm
  have := List.head_dropWhile_not isPySpace l (by simpa [← hX] using hXne)
  simpa [← hX, h5] using this

/-- A nonempty stripped line tokenizes to at least one word. -/
theorem pyWords_pyStrip_ne_nil (l : List Char) (h : pyStrip l ≠ []) :
    pyWords (pyStrip l) ≠ [] := by
  obtain ⟨c, cs, hcons, hc⟩ := pyStrip_ne_nil_head l h
  rw [hcons]
  show pyWordsAux (c :: cs) [] ≠ []
  simp only [pyWordsAux, hc]
  simpa [hc] using pyWordsAux_ne_nil cs [c] (by simp)

/-! ## Decimal rendering: round trip and injectivity -/

theorem digitChar_val (d : Nat) (h : d < 10) : (Nat.digitChar d).toNat - 48 = d := by
  interval_cases d <;> rfl

theorem decValue_append_digit (l : List Char) (c : Char) :
    decValue (l ++ [c]) = decValue l * 10 + (c.toNat - 48) := by
  simp [decValue, List.foldl_append]

theorem decValue_natDecimalAux :
    ∀ fuel n, n ≤ fuel → decValue (natDecimalAux fuel n) = n := by
  intro fuel
  induction fuel with
  | zero =>
    intro n hn
    have h0 : n = 0 := Nat.le_zero.mp hn
    subst h0; rfl
  | succ fuel ih =>
    intro n hn
    match n with
    | 0 => rfl
    | m + 1 =>
      rw [natDecimalAux, decValue_append_digit]
      have hdiv : (m + 1) / 10 ≤ fuel := by
        have := Nat.div_lt_self (Nat.succ_pos m) (by norm_num : 1 < 10)
        omega
      rw [ih ((m + 1) / 10) hdiv, digitChar_val _ (Nat.mod_lt _ (by norm_num))]
      have := Nat.div_add_mod (m + 1) 10
      omega

theorem decValue_natDecimalChars (n : Nat) : decValue (natDecimalChars n) = n := by
  by_cases h : n = 0
  · subst h; rfl
  · simp only [natDecimalChars, if_neg h]
    exact decValue_natDecimalAux n n le_rfl

theorem natDecimal_injective : Function.Injective natDecimal := by
  intro a b h
  have := congrArg (fun s : String => decValue s.data) h
  simpa [natDecimal, decValue_natDecimalChars] using this

theorem natDecimal_length_pos (n : Nat) (h : n ≠ 0) : 1 ≤ (natDecimal n).length := by
  obtain ⟨m, rfl⟩ : ∃ m, n = m + 1 := ⟨n - 1, by omega⟩
  show 1 ≤ (String.mk (natDecimalChars (m + 1))).length
  simp only [natDecimalChars, Nat.succ_ne_zero, if_false, natDecimalAux]
  simp [String.length]

theorem tsxFilename_base_ne_succ (m : Nat) : tsxFilename 0 ≠ tsxFilename (m + 1) := by
  intro h
  have hlen := congrArg String.length h
  rw [show tsxFilename 0 = "tsx_symbols.xlsx" from rfl,
    show tsxFilename (m + 1) = "tsx_symbols_" ++ natDecimal (m + 1) ++ ".xlsx" from rfl,
    String.length_append, String.length_append] at hlen
  have h16 : ("tsx_symbols.xlsx" : String).length = 16 := rfl
  have h12 : ("tsx_symbols_" : String).length = 12 := rfl
  have h5 : (".xlsx" : String).length = 5 := rfl
  have hpos := natDecimal_length_pos (m + 1) (Nat.succ_ne_zero m)
  omega

theorem tsxFilename_inj : Function.Injective tsxFilename := by
  intro a b h
  match a, b with
  | 0, 0 => rfl
  | 0, m + 1 => exact absurd h (tsxFilename_base_ne_succ m)
  | m + 1, 0 => exact absurd h.symm (tsxFilename_base_ne_succ m)
  | a + 1, b + 1 =>
    have hdata := congrArg String.data h
    simp only [tsxFilename, String.data_append] at hdata
    rw [List.append_assoc, List.append_assoc] at hdata
    have h1 := List.append_cancel_left hdata
    have h2 := List.append_cancel_right h1
    have h3 : natDecimal (a + 1) = natDecimal (b + 1) := String.ext h2
    have := natDecimal_injective h3
    omega

/-! ## The fresh-filename loop -/

theorem tsxFilename_succ_eq (c : Nat) (h : 1 ≤ c) :
    "tsx_symbols_" ++ natDecimal c ++ ".xlsx" = tsxFilename c := by
  obtain ⟨m, rfl⟩ : ∃ m, c = m + 1 := ⟨c - 1, by omega⟩
  rfl

theorem get_all_stock_loop_spec (existing : List String) :
    ∀ fuel c, (∃ j, j < fuel ∧ tsxFilename (c + j) ∉ existing) →
      ∃ k, get_all_stock_loop existing fuel (tsxFilename c) (c + 1) = tsxFilename k ∧
        tsxFilename k ∉ existing ∧ c ≤ k ∧
        ∀ m, c ≤ m → m < k → tsxFilename m ∈ existing := by
  intro fuel
  induction fuel with
  | zero =>
    rintro c ⟨j, hj, -⟩
    omega
  | succ fuel ih =>
    rintro c ⟨j, hj, hnot⟩
    by_cases hc : tsxFilename c ∈ existing
    · have hj' : ∃ j', j' < fuel ∧ tsxFilename (c + 1 + j') ∉ existing := by
        match j, hj, hnot with
        | 0, _, hnot => exact absurd hc hnot
        | j' + 1, hj, hnot =>
          refine ⟨j', by omega, ?_⟩
          have harith : c + 1 + j' = c + (j' + 1) := by omega
          rw [harith]; exact hnot
      obtain ⟨k, hk, hnk, hck, hall⟩ := ih (c + 1) hj'
      refine ⟨k, ?_, hnk, by omega, ?_⟩
      · rw [get_all_stock_loop, if_pos hc, tsxFilename_succ_eq (c + 1) (by omega)]
        exact hk
      · intro m hcm hmk
        rcases Nat.eq_or_lt_of_le hcm with rfl | hlt
        · exact hc
        · exact hall m (by omega) hmk
    · refine ⟨c, ?_, hc, le_rfl, ?_⟩
      · rw [get_all_stock_loop, if_neg hc]
      · intro m h1 h2; omega

theorem exists_unused_tsxFilename (existing : List String) :
    ∃ j, j < existing.length + 1 ∧ tsxFilename j ∉ existing := by
  by_contra hcon
  push_neg at hcon
  set T : List String := (List.range (existing.length + 1)).map tsxFilename with hT
  have hnd : T.Nodup := List.Nodup.map tsxFilename_inj (List.nodup_range _)
  have hsub : T ⊆ existing := by
    intro x hx
    rw [hT, List.mem_map] at hx
    obtain ⟨j, hj, rfl⟩ := hx
    exact hcon j (List.mem_range.mp hj)
  have h1 : T.toFinset.card = T.length := List.toFinset_card_of_nodup hnd
  have h2 : T.toFinset ⊆ existing.toFinset := by
    intro x hx
    rw [List.mem_toFinset] at hx ⊢
    exact hsub hx
  have h3 := Finset.card_le_card h2
  have h4 := List.toFinset_card_le existing
  have h5 : T.length = existing.length + 1 := by
    rw [hT, List.length_map, List.length_range]
  omega

theorem get_all_stock_spec (existing : List String) :
    ∃ k, get_all_stock existing = tsxFilename k ∧ tsxFilename k ∉ existing ∧
      ∀ m, m < k → tsxFilename m ∈ existing := by
  obtain ⟨j, hj, hnot⟩ := exists_unused_tsxFilename existing
  obtain ⟨k, hk, hnk, -, hall⟩ :=
    get_all_stock_loop_spec existing (existing.length + 1) 0
      ⟨j, hj, by rw [Nat.zero_add]; exact hnot⟩
  exact ⟨k, hk, hnk, fun m hm => hall m (Nat.zero_le m) hm⟩

/-! ## Evaluating the fixed-point renderings -/

theorem rhe_intCast (z : ℤ) : rhe ((z : ℚ)) = z := by
  have h0 : ((z : ℚ)) - (⌊(z : ℚ)⌋ : ℚ) = 0 := by
    rw [Int.floor_intCast]; ring
  rw [rhe]
  simp only [h0]
  norm_num

theorem fixed2_eval (q : ℚ) (z : ℤ) (h : q * 100 = (z : ℚ)) :
    fixed2 q = (if z < 0 then "-" else "") ++ natDecimal (z.natAbs / 100) ++ "."
      ++ pad2 (z.natAbs % 100) := by
  rw [fixed2]
  simp only [h, rhe_intCast]

theorem commaFixed2_eval (q : ℚ) (z : ℤ) (h : q * 100 = (z : ℚ)) :
    commaFixed2 q = (if z < 0 then "-" else "")
      ++ String.mk (insertCommas (natDecimalChars (z.natAbs / 100))) ++ "."
      ++ pad2 (z.natAbs % 100) := by
  rw [commaFixed2]
  simp only [h, rhe_intCast]

theorem group3_short (l : List Char) (h : l.length ≤ 3) : group3 l = l := by
  match l with
  | [] => rfl
  | [a] => rfl
  | [a, b] => rfl
  | [a, b, c] => rfl
  | a :: b :: c :: d :: rest => simp at h

theorem insertCommas_short (l : List Char) (h : l.length ≤ 3) : insertCommas l = l := by
  rw [insertCommas, group3_short l.reverse (by simpa using h), List.reverse_reverse]

theorem natDecimalAux_length :
    ∀ fuel n k, n ≤ fuel → n < 10 ^ k → (natDecimalAux fuel n).length ≤ k := by
  intro fuel
  induction fuel with
  | zero =>
    intro n k hn hk
    have h0 : n = 0 := Nat.le_zero.mp hn
    subst h0; simp [natDecimalAux]
  | succ fuel ih =>
    intro n k hn hk
    match n with
    | 0 => simp [natDecimalAux]
    | m + 1 =>
      have hk0 : k ≠ 0 := by
        intro h0; subst h0; simp at hk
      obtain ⟨k', rfl⟩ : ∃ k', k = k' + 1 := ⟨k - 1, by omega⟩
      rw [natDecimalAux, List.length_append]
      have h1 : (m + 1) / 10 ≤ fuel := by
        have := Nat.div_lt_self (Nat.succ_pos m) (by norm_num : 1 < 10)
        omega
      have h2 : (m + 1) / 10 < 10 ^ k' := by
        rw [Nat.div_lt_iff_lt_mul (by norm_num : 0 < 10)]
        calc m + 1 < 10 ^ (k' + 1) := hk
          _ = 10 ^ k' * 10 := by ring
      have := ih ((m + 1) / 10) k' h1 h2
      simp only [List.length_cons, List.length_nil]
      omega

theorem natDecimalChars_length_le (n k : Nat) (hk : 1 ≤ k) (h : n < 10 ^ k) :
    (natDecimalChars n).length ≤ k := by
  by_cases h0 : n = 0
  · subst h0; simp [natDecimalChars]; omega
  · rw [natDecimalChars, if_neg h0]
    exact natDecimalAux_length n n k le_rfl h

/-- Where the desktop's grouped sub-1000 rendering inserts no comma, it
agrees with the web's ungrouped `toFixed(2)`. -/
theorem commaFixed2_eq_fixed2 (q : ℚ) (h : (rhe (q * 100)).natAbs < 100000) :
    commaFixed2 q = fixed2 q := by
  rw [commaFixed2, fixed2]
  have hdiv : (rhe (q * 100)).natAbs / 100 < 10 ^ 3 := by
    have : (rhe (q * 100)).natAbs / 100 < 1000 := by omega
    simpa using this
  have hlen := natDecimalChars_length_le ((rhe (q * 100)).natAbs / 100) 3 (by norm_num) hdiv
  rw [insertCommas_short _ hlen]
  rfl

/-! ## Map form of the symbol pipeline (order and multiplicity) -/

theorem rawSymbols_map_form (lines : List (List Char)) :
    rawSymbols lines =
      (lines.filter line_retained).map (fun l => (pyWords (pyStrip l)).headD []) := by
  induction lines with
  | nil => rfl
  | cons l ls ih =>
    simp only [rawSymbols] at ih ⊢
    rw [List.filterMap_cons, List.filter_cons]
    by_cases h : isSkippedLine (pyStrip l)
    · have hr : line_retained l = false := by simp [line_retained, h]
      rw [if_pos h, hr]
      simpa using ih
    · have hne : pyStrip l ≠ [] := by
        intro h0
        rw [h0] at h
        exact h rfl
      have hw := pyWords_pyStrip_ne_nil l hne
      have hh : (pyWords (pyStrip l)).head? = some ((pyWords (pyStrip l)).headD []) := by
        cases hx : pyWords (pyStrip l) with
        | nil => exact absurd hx hw
        | cons a tl => rfl
      have hr : line_retained l = true := by simp [line_retained, h]
      rw [if_neg h, hh, hr]
      rw [if_pos rfl, List.map_cons, ih]

theorem get_all_stock_symbols_map_form (text : String) :
    get_all_stock_symbols text =
      ((pySplitlines text.toList).filter line_retained).map line_ticker := by
  simp only [get_all_stock_symbols]
  rw [rawSymbols_map_form, List.map_map, List.map_map]
  refine List.map_congr_left ?_
  intro a ha
  rfl

/-! ## No whitespace inside produced tickers -/

theorem get_all_stock_symbols_no_space (text : String) (s : String)
    (hs : s ∈ get_all_stock_symbols text) :
    s.data.all (fun c => !(isPySpace c)) = true := by
  simp only [get_all_stock_symbols, List.map_map, List.mem_map] at hs
  obtain ⟨w, hw, rfl⟩ := hs
  simp only [rawSymbols] at hw
  rw [List.mem_filterMap] at hw
  obtain ⟨rawLine, -, hsome⟩ := hw
  by_cases h : isSkippedLine (pyStrip rawLine)
  · simp [h] at hsome
  · simp only [h, if_neg, if_false] at hsome
    have hwmem : w ∈ pyWords (pyStrip rawLine) := List.mem_of_mem_head? hsome
    have hns := pyWords_no_space hwmem
    rw [List.all_eq_true]
    intro c hc
    have hc' : c ∈ List.takeWhile (fun x => decide (x ≠ ':')) w := hc
    have hcw : c ∈ w := (List.takeWhile_sublist _).subset hc'
    simp [hns c hcw]

/-! ## Claim theorems -/

/-- C1: `get_all_stock_symbols` splits the fetched text into lines, drops
blank lines and lines starting with the header prefixes ("As of" /
"Symbol"), takes the first whitespace-delimited token of each remaining
line, strips any trailing colon-delimited annotation, and returns the
results in order (proved as equality with the pipeline written from the
spec's words); in particular, over the header line "As of 2024-01-01", the
line "Symbol Name", and the data line "ABC:US  Some Co" it yields exactly
["ABC"]. -/
theorem C1_fetch_symbols_pipeline :
    (∀ text : String, get_all_stock_symbols text = fetch_symbols_spec text) ∧
    get_all_stock_symbols "As of 2024-01-01\nSymbol Name\nABC:US  Some Co" = ["ABC"] :=
  ⟨get_all_stock_symbols_eq_spec, by decide⟩

/-- C9: `get_all_stock_symbols` performs no de-duplication and preserves
input order: the result is exactly the in-order image of the retained source
lines under the per-line ticker extraction, so a ticker whose retained
source lines occur k times appears exactly k times, at positions matching
the relative order of those lines. -/
theorem C9_order_and_multiplicity (text : String) (t : String) :
    get_all_stock_symbols text =
      ((pySplitlines text.toList).filter line_retained).map line_ticker ∧
    (get_all_stock_symbols text).count t =
      (((pySplitlines text.toList).filter line_retained).filter
        (fun l => line_ticker l == t)).length := by
  refine ⟨get_all_stock_symbols_map_form text, ?_⟩
  rw [get_all_stock_symbols_map_form, List.count_eq_countP, List.countP_map,
    List.countP_eq_length_filter]
  rfl

/-- C5 counterexample: the claim says every produced ticker is non-empty,
but a data line whose first token starts with a colon produces the empty
ticker: the fetched text ":US Co" yields exactly [""], of length 0. -/
theorem C5_empty_ticker_counterexample :
    get_all_stock_symbols ":US Co" = [""] ∧ ("" : String).length = 0 := by
  decide

/-- C5 amended: every ticker produced by `get_all_stock_symbols` contains no
whitespace character (hence is whitespace-trimmed); but a ticker can be
empty, namely when the retained line's first token starts with a colon, so
"length at least 1" does not hold in general. -/
theorem C5_tickers_no_whitespace (text : String) (s : String)
    (hs : s ∈ get_all_stock_symbols text) :
    s.data.all (fun c => !(isPySpace c)) = true :=
  get_all_stock_symbols_no_space text s hs

theorem C5_tickers_no_whitespace_witness :
    ("ABC" ∈ get_all_stock_symbols "ABC:US  Some Co") ∧
    ("ABC" : String).data.all (fun c => !(isPySpace c)) = true :=
  ⟨by decide, C5_tickers_no_whitespace "ABC:US  Some Co" "ABC" (by decide)⟩

/-- C2: `get_all_stock` writes to `tsx_symbols.xlsx` when no file of that
name exists, otherwise to `tsx_symbols_<n>.xlsx` for the first unused
integer n ≥ 1; it returns the filename actually used and never overwrites
an existing file; two consecutive calls in an initially empty directory
produce tsx_symbols.xlsx then tsx_symbols_1.xlsx. -/
theorem C2_get_all_stock_fresh_filename :
    (∀ existing : List String,
      (∃ k, get_all_stock existing = tsxFilename k ∧ tsxFilename k ∉ existing ∧
        ∀ m, m < k → tsxFilename m ∈ existing) ∧
      get_all_stock existing ∉ existing ∧
      ("tsx_symbols.xlsx" ∉ existing → get_all_stock existing = "tsx_symbols.xlsx")) ∧
    get_all_stock [] = "tsx_symbols.xlsx" ∧
    get_all_stock ["tsx_symbols.xlsx"] = "tsx_symbols_1.xlsx" := by
  refine ⟨fun existing => ⟨get_all_stock_spec existing, ?_, ?_⟩, by decide, by decide⟩
  · obtain ⟨k, hk, hnk, -⟩ := get_all_stock_spec existing
    rw [hk]; exact hnk
  · intro hbase
    show get_all_stock_loop existing (existing.length + 1) "tsx_symbols.xlsx" 1
      = "tsx_symbols.xlsx"
    rw [get_all_stock_loop, if_neg hbase]

theorem C2_get_all_stock_fresh_filename_witness :
    ("tsx_symbols.xlsx" ∉ (["other.xlsx"] : List String)) ∧
    get_all_stock ["other.xlsx"] = "tsx_symbols.xlsx" :=
  ⟨by decide,
    (C2_get_all_stock_fresh_filename.1 ["other.xlsx"]).2.2 (by decide)⟩

/-- C3 counterexample: the claim's formatter (absolute-value thresholds, no
currency prefix) disagrees with the code.  At 5e9 the code returns "$5.00B"
with the `$` applied by the formatter itself, not "5.00B"; at -2e9 (where
|x| ≥ 1e9) the code takes the plain thousands-grouped branch, because its
comparisons are signed, not absolute-value. -/
theorem C3_format_number_counterexample :
    format_number (PyObj.num 5000000000) ≠ format_magnitude_claimed (PyObj.num 5000000000) ∧
    format_number (PyObj.num (-2000000000)) ≠ format_magnitude_claimed (PyObj.num (-2000000000)) := by
  have e1 : ((5000000000 : ℚ) / 1000000000) * 100 = ((500 : ℤ) : ℚ) := by norm_num
  have hge : ((5000000000 : ℚ) ≥ 1000000000) := by norm_num
  have h1 : format_number (PyObj.num 5000000000) = "$5.00B" := by
    simp [format_number, format_number_try, hge, fixed2_eval _ _ e1]
    decide
  have h2 : format_magnitude_claimed (PyObj.num 5000000000) = "5.00B" := by
    have habs : (|(5000000000 : ℚ)| ≥ 1000000000) := by norm_num
    simp [format_magnitude_claimed, habs, fixed2_eval _ _ e1]
    decide
  have e2 : ((-2000000000 : ℚ)) * 100 = ((-200000000000 : ℤ) : ℚ) := by norm_num
  have h3 : format_number (PyObj.num (-2000000000)) = "$-2,000,000,000.00" := by
    simp [format_number, format_number_try, commaFixed2_eval _ _ e2]
    norm_num
    decide
  have e3 : ((-2000000000 : ℚ) / 1000000000) * 100 = ((-200 : ℤ) : ℚ) := by norm_num
  have h4 : format_magnitude_claimed (PyObj.num (-2000000000)) = "-2.00B" := by
    have habs : (|(-2000000000 : ℚ)| ≥ 1000000000) := by
      rw [abs_of_nonpos (by norm_num)]
      norm_num
    simp [format_magnitude_claimed, habs, fixed2_eval _ _ e3]
    decide
  rw [h1, h2, h3, h4]
  exact ⟨by decide, by decide⟩

/-- C3 amended: `_format_number` returns "N/A" for an absent (or non-numeric)
value; for a number x it branches on the SIGNED comparisons x ≥ 1e9, x ≥ 1e6,
x ≥ 1e3 (not on |x|), scaling by the threshold with 2 decimals and suffix
B/M/K, and otherwise renders a fixed 2-decimal thousands-grouped value — with
the currency symbol `$` prefixed by the formatter itself in every numeric
branch (callers of `_format_number` add no further symbol). -/
theorem C3_format_magnitude_amended (v : PyObj) :
    format_number v = format_magnitude_amended v := by
  cases v with
  | none => rfl
  | str s => rfl
  | num q => rfl

/-- C4: the four desktop formatters are total and never raise: `None` and
non-numeric inputs yield exactly "N/A", and whenever a formatter's `try`
body raises, the `except` degrades the result to "N/A". -/
theorem C4_formatters_total :
    (format_number PyObj.none = "N/A" ∧ format_price PyObj.none = "N/A" ∧
      format_ratio PyObj.none = "N/A" ∧ format_percent PyObj.none = "N/A") ∧
    (∀ s : String,
      format_number (PyObj.str s) = "N/A" ∧ format_price (PyObj.str s) = "N/A" ∧
      format_ratio (PyObj.str s) = "N/A" ∧ format_percent (PyObj.str s) = "N/A") ∧
    (∀ (v : PyObj) (e : PyExc),
      (format_number_try v = Except.error e → format_number v = "N/A") ∧
      (format_price_try v = Except.error e → format_price v = "N/A") ∧
      (format_ratio_try v = Except.error e → format_ratio v = "N/A") ∧
      (format_percent_try v = Except.error e → format_percent v = "N/A")) := by
  refine ⟨⟨rfl, rfl, rfl, rfl⟩, fun s => ⟨rfl, rfl, rfl, rfl⟩, fun v e => ⟨?_, ?_, ?_, ?_⟩⟩
  all_goals intro h
  all_goals cases v
  all_goals first
    | rfl
    | simp [format_number_try, format_price_try, format_ratio_try, format_percent_try] at h

theorem C4_formatters_total_witness :
    format_number (PyObj.str "x") = "N/A" ∧ format_price (PyObj.str "x") = "N/A" ∧
    format_ratio (PyObj.str "x") = "N/A" ∧ format_percent (PyObj.str "x") = "N/A" :=
  have h := C4_formatters_total.2.2 (PyObj.str "x") PyExc.typeError
  ⟨h.1 rfl, h.2.1 rfl, h.2.2.1 rfl, h.2.2.2 rfl⟩

/-- C6 counterexample: the desktop and web formatters do NOT produce the same
rendered result for every input.  At 0 the web page renders "N/A" (JavaScript
`!value` treats 0 as falsy) while the desktop renders "$0.00"; at -123456 the
desktop's thousands-grouped branch prints "$-123,456.00" while the web prints
"$-123456.00" (its sub-1000 branch never groups); and for a truthy
non-numeric value the web script throws a TypeError while the desktop
degrades to "N/A". -/
theorem C6_formatters_diverge_counterexample :
    webText (formatNumber (PyObj.num 0)) ≠ Except.ok (format_number (PyObj.num 0)) ∧
    webText (formatNumber (PyObj.num (-123456))) ≠ Except.ok (format_number (PyObj.num (-123456))) ∧
    webText (formatNumber (PyObj.str "abc")) = Except.error JsExc.typeError ∧
    format_number (PyObj.str "abc") = "N/A" := by
  have e0 : ((0 : ℚ)) * 100 = ((0 : ℤ) : ℚ) := by norm_num
  have hz : format_number (PyObj.num 0) = "$0.00" := by
    simp [format_number, format_number_try, commaFixed2_eval _ _ e0]
    decide
  have hweb0 : webText (formatNumber (PyObj.num 0)) = Except.ok "N/A" := by
    simp [webText, formatNumber, Except.map]
  have en : ((-123456 : ℚ)) * 100 = ((-12345600 : ℤ) : ℚ) := by norm_num
  have hneg : format_number (PyObj.num (-123456)) = "$-123,456.00" := by
    simp [format_number, format_number_try, commaFixed2_eval _ _ en]
    norm_num
    decide
  have hwebneg : webText (formatNumber (PyObj.num (-123456))) = Except.ok "$-123456.00" := by
    simp [webText, formatNumber, Except.map, fixed2_eval _ _ en]
    norm_num
    decide
  refine ⟨?_, ?_, rfl, rfl⟩
  · rw [hweb0, hz]
    intro hcon
    exact absurd (Except.ok.inj hcon) (by decide)
  · rw [hwebneg, hneg]
    intro hcon
    exact absurd (Except.ok.inj hcon) (by decide)

/-- C6 amended: the desktop and web formatters agree — same rendered result —
on absent input (both "N/A") and on nonzero numeric input, except in
`formatNumber`'s plain sub-1000 branch when the rounded value has at least
four integer digits (|rounded cents| ≥ 100000), where the desktop groups
thousands with commas and the web does not.  They differ at 0 (web "N/A",
desktop formatted zero) and on truthy non-numeric input (web throws, desktop
"N/A"). -/
theorem C6_formatters_agree_amended (q : ℚ) (hq : q ≠ 0)
    (hsize : 1000 ≤ q ∨ (rhe (q * 100)).natAbs < 100000) :
    (webText (formatNumber (PyObj.num q)) = Except.ok (format_number (PyObj.num q)) ∧
     webText (formatPrice (PyObj.num q)) = Except.ok (format_price (PyObj.num q)) ∧
     webText (formatRatio (PyObj.num q)) = Except.ok (format_ratio (PyObj.num q)) ∧
     webText (formatPercent (PyObj.num q)) = Except.ok (format_percent (PyObj.num q))) ∧
    (webText (formatNumber PyObj.none) = Except.ok (format_number PyObj.none) ∧
     webText (formatPrice PyObj.none) = Except.ok (format_price PyObj.none) ∧
     webText (formatRatio PyObj.none) = Except.ok (format_ratio PyObj.none) ∧
     webText (formatPercent PyObj.none) = Except.ok (format_percent PyObj.none)) := by
  refine ⟨⟨?_, ?_, ?_, ?_⟩, rfl, rfl, rfl, rfl⟩
  · by_cases h9 : q ≥ 1000000000
    · simp [formatNumber, format_number, format_number_try, webText, Except.map, hq, h9]
    · by_cases h6 : q ≥ 1000000
      · simp [formatNumber, format_number, format_number_try, webText, Except.map, hq, h9, h6]
      · by_cases h3 : q ≥ 1000
        · simp [formatNumber, format_number, format_number_try, webText, Except.map, hq, h9,
            h6, h3]
        · have hsmall : (rhe (q * 100)).natAbs < 100000 := by
            rcases hsize with h | h
            · exact absurd h h3
            · exact h
          simp [formatNumber, format_number, format_number_try, webText, Except.map, hq, h9,
            h6, h3, commaFixed2_eq_fixed2 q hsmall]
  · simp [formatPrice, format_price, format_price_try, webText, Except.map, hq]
  · simp [formatRatio, format_ratio, format_ratio_try, webText, Except.map, hq]
  · simp [formatPercent, format_percent, format_percent_try, webText, Except.map, hq]

theorem C6_formatters_agree_amended_witness :
    webText (formatNumber (PyObj.num 5)) = Except.ok (format_number (PyObj.num 5)) ∧
    webText (formatPrice (PyObj.num 5)) = Except.ok (format_price (PyObj.num 5)) := by
  have hsmall : (rhe ((5 : ℚ) * 100)).natAbs < 100000 := by
    have e : ((5 : ℚ)) * 100 = ((500 : ℤ) : ℚ) := by norm_num
    rw [e, rhe_intCast]
    decide
  have h := C6_formatters_agree_amended 5 (by norm_num) (Or.inr hsmall)
  exact ⟨h.1.1, h.1.2.1⟩

/-- C7 counterexample: a record missing `longName` DOES cause a hard failure
in a consumer: `print_stock_info` reads `info['longName']` outside its `try`
block, so on the empty record the `KeyError` propagates uncaught. -/
theorem C7_missing_longName_counterexample :
    print_stock_info (fun _ => Except.ok ([] : Dict)) "ABC" = Except.error PyExc.keyError :=
  rfl

/-- C7 amended: the GUI display update treats every field as optional — with
all fields absent its body still succeeds, rendering defaults, and any
internal exception is caught — and `print_stock_info` treats every field as
optional EXCEPT `longName`: whenever `longName` is present it returns
normally (missing other fields at worst degrade the body to "No Stock"
inside the `try`), but a record without `longName` raises an uncaught
`KeyError`. -/
theorem C7_optional_fields_amended (info : Dict) (stock symbol : String) :
    ((dictGet info "longName").isSome = true →
      ∃ ls, print_stock_info (fun _ => Except.ok info) stock = Except.ok ls) ∧
    (∃ ls, update_display_body ([] : Dict) symbol = Except.ok ls) ∧
    (∀ e, update_display_body info symbol = Except.error e →
      update_display info symbol = ["Error updating display"]) := by
  refine ⟨?_, ⟨_, rfl⟩, ?_⟩
  · intro hsome
    obtain ⟨v, hv⟩ := Option.isSome_iff_exists.mp hsome
    cases hb : print_stock_info_body info with
    | ok ls =>
      refine ⟨dictRepr info :: ("========== " ++ pyStr v ++ " (" ++ stock ++ ") ==========") :: ls, ?_⟩
      simp [print_stock_info, get_company_info, hv, hb, Bind.bind, Except.bind, pure, Except.pure]
    | error e =>
      refine ⟨[dictRepr info, "========== " ++ pyStr v ++ " (" ++ stock ++ ") ==========", "No Stock"], ?_⟩
      simp [print_stock_info, get_company_info, hv, hb, Bind.bind, Except.bind, pure, Except.pure]
  · intro e he
    simp [update_display, he]

theorem C7_optional_fields_amended_witness :
    ∃ ls, print_stock_info (fun _ => Except.ok ([("longName", PyObj.str "Apple Inc.")] : Dict))
      "AAPL" = Except.ok ls :=
  (C7_optional_fields_amended [("longName", PyObj.str "Apple Inc.")] "AAPL" "AAPL").1 rfl

/-- C8: `get_company_info` catches nothing: a provider failure propagates to
the caller as the same single error (and through `print_stock_info`, whose
lookup precedes its `try`, likewise uncaught), and no record is produced on
failure; on success the provider's record is returned unchanged. -/
theorem C8_provider_error_propagates (provider : String → Except PyExc Dict)
    (symbol : String) :
    (∀ e, provider symbol = Except.error e →
      get_company_info provider symbol = Except.error e ∧
      print_stock_info provider symbol = Except.error e) ∧
    (∀ d, provider symbol = Except.ok d →
      get_company_info provider symbol = Except.ok d) := by
  constructor
  · intro e he
    constructor
    · simpa [get_company_info] using he
    · simp [print_stock_info, get_company_info, he, Bind.bind, Except.bind]
  · intro d hd
    simpa [get_company_info] using hd

theorem C8_provider_error_propagates_witness :
    get_company_info (fun _ => Except.error PyExc.networkError) "ABC" =
      Except.error PyExc.networkError ∧
    print_stock_info (fun _ => Except.error PyExc.networkError) "ABC" =
      Except.error PyExc.networkError :=
  (C8_provider_error_propagates (fun _ => Except.error PyExc.networkError) "ABC").1
    PyExc.networkError rfl

/-- C10: every handler method leaves the instance state unchanged — the
post-state of each call equals the pre-state — the constructor sets the only
field `stock_symbol_list` to the fixed URL, and any instance whose field
holds that URL IS (propositionally) the freshly constructed instance, so the
long-lived shared handler behaves identically to a fresh one on every call. -/
theorem C10_handler_state_frame (self : stock_handler)
    (fetch : String → Except PyExc String) (existing : List String)
    (provider : String → Except PyExc Dict) (symbol ticker : String) :
    (self.get_all_stock_symbols_m fetch).2 = self ∧
    (self.get_all_stock_m fetch existing).2 = self ∧
    (self.get_company_info_m provider symbol).2 = self ∧
    (self.print_stock_info_m provider symbol).2 = self ∧
    (self.analyze_etf_m provider ticker).2 = self ∧
    stock_handler_new.stock_symbol_list =
      "https://www.tsx.com/files/trading/interlisted-companies.txt" ∧
    (self.stock_symbol_list = stock_handler_new.stock_symbol_list →
      self = stock_handler_new) := by
  refine ⟨rfl, ?_, rfl, rfl, rfl, rfl, ?_⟩
  · rw [stock_handler.get_all_stock_m]
    split <;> rfl
  · intro h
    cases self
    exact congrArg stock_handler.mk h

theorem C10_handler_state_frame_witness :
    (stock_handler_new.get_all_stock_symbols_m
        (fun _ => Except.error PyExc.networkError)).2 = stock_handler_new ∧
    stock_handler_new = stock_handler_new :=
  have h := C10_handler_state_frame stock_handler_new
    (fun _ => Except.error PyExc.networkError) []
    (fun _ => Except.error PyExc.networkError) "A" "B"
  ⟨h.1, h.2.2.2.2.2.2 rfl⟩
